import Mathlib

/-!
Shallow embedding of src/ssc-billing-logger.py (the usage reconciliation and
record synthesis pipeline) and verification of the specification claims.

Modelling conventions:
  timestamps are Nat (UTC seconds); numeric metering values and costs are
  rationals (Python floats carry exact binary rationals in all paths used
  here); Python dicts become insertion-ordered association lists; a Python
  exception becomes an `Except PyErr` error value; HTTP responses from the
  external OpenStack services are abstracted into an `Env` record giving,
  for each request the script makes, the decoded response (with `none` or a
  Bool standing for a non-2xx response).
-/

/-- Python exception kinds that the script can raise. -/
inductive PyErr where
  | keyError
  | nameError
  | stopIteration
  | typeError
  | runtimeErr (code : String)
  deriving DecidableEq, Repr

/-- Dict subscript `d[k]` on a field modelled as `Option`: KeyError when absent. -/
def getItem {α : Type} : Option α → Except PyErr α
  | some a => Except.ok a
  | none => Except.error PyErr.keyError





/-- Python `int()` truncation toward zero on a rational. -/
def pyInt (q : ℚ) : ℤ := if 0 ≤ q then q.floor else -((-q).floor)

/-- Association-list lookup, embedding Python dict key lookup. -/
def lookupAssoc {α : Type} : List (String × α) → String → Option α
  | [], _ => none
  | (k, v) :: rest, key => if k = key then some v else lookupAssoc rest key

/-- CostDefinition from the script: the per-region flavor cost table loaded
from logger-state/costs.json (the file loading itself is out of scope; the
table contents are the state). -/
structure CostDefinition where
  flavor_costs : List (String × ℚ)
  deriving DecidableEq, Repr

/-- Embeds `CostDefinition.lookup_compute` (source lines 58-63). The happy
path returns the table entry. The KeyError handler formats a diagnostic that
references the undefined name `flavour_name` (the parameter is spelled
`flavor_name`), so the handler itself raises NameError before reaching the
`return 0.0` line: a missing flavor aborts the caller instead of pricing at
zero. -/
def lookup_compute (cd : CostDefinition) (flavor_name : String) : Except PyErr ℚ :=
  match lookupAssoc cd.flavor_costs flavor_name with
  | some c => Except.ok c
  | none => Except.error PyErr.nameError

/-- Embeds `CostDefinition.lookup_block_storage` (source lines 65-70): the
unit price under key "storage.block" times the gigabyte count, or 0.0 with a
diagnostic when the key is absent (this handler uses a literal string, so it
does return). -/
def lookup_block_storage (cd : CostDefinition) (gigabytes : ℚ) : ℚ :=
  match lookupAssoc cd.flavor_costs "storage.block" with
  | some u => u * gigabytes
  | none => 0

/-- StatPeriodKey: `(resource_id, period_start, period_end)` as built in
`populate_instances`. -/
abbrev StatKey := String × Nat × Nat

/-- UsageAggregate: the per-key measurement dict built by
`populate_instances`. Every field is optional because the source builds the
aggregate as a plain dict whose keys are assigned incrementally. -/
structure Aggregate where
  Flavor : Option String := none
  ResourceId : Option String := none
  ProjectId : Option String := none
  UserId : Option String := none
  StartTime : Option Nat := none
  EndTime : Option Nat := none
  Duration : Option String := none
  Zone : Option String := none
  AllocatedCPU : Option ℚ := none
  AllocatedMemory : Option ℚ := none
  AllocatedDisk : Option ℚ := none
  deriving DecidableEq, Repr

/-- Python dict read on the measurement dict. -/
def dictGet : List (StatKey × Aggregate) → StatKey → Option Aggregate
  | [], _ => none
  | (k, v) :: rest, key => if k = key then some v else dictGet rest key

/-- Python dict write on the measurement dict: replace in place when the key
exists, append otherwise (insertion order preserved, as in Python 3). -/
def dictSet : List (StatKey × Aggregate) → StatKey → Aggregate → List (StatKey × Aggregate)
  | [], key, v => [(key, v)]
  | (k, w) :: rest, key, v =>
      if k = key then (key, v) :: rest else (k, w) :: dictSet rest key v

/-- One entry of a ceilometer statistics response, after grouping: the
resource id from the groupby, the sub-period bounds, and the max statistic. -/
structure StatEntry where
  resource_id : String
  period_start : Nat
  period_end : Nat
  max : ℚ
  deriving DecidableEq, Repr

/-- One entry of the ceilometer resources inventory. `instance_type` is the
metadata key read by the compute loop (absent on volumes);
`availability_zone` is read with a default. -/
structure Resource where
  resource_id : String
  project_id : String
  user_id : String
  instance_type : Option String := none
  availability_zone : Option String := none
  deriving DecidableEq, Repr

/-- Environment of external responses consumed by one run. A `none` list or
a false Bool stands for a non-2xx response to the corresponding request. -/
structure Env where
  authOk : Bool := true
  metersOk : Bool := true
  flavorsOk : Bool := true
  resources : Option (List Resource) := some []
  vcpusStats : Option (List StatEntry) := some []
  memoryStats : Option (List StatEntry) := some []
  volumeStats : Option (List StatEntry) := some []
  projectName : String → Option String := fun _ => none
  userName : String → Option String := fun _ => none

/-- Duration string built in `populate_instances` for the fixed 3600 s period. -/
def durationIso : String := "PT3600S"

/-- Compute-loop metric fields of the first statistics loop. -/
inductive CField where
  | cpu
  | mem
  deriving DecidableEq, Repr

/-- Embeds `inst[field] = entry[max]` for the compute metrics. -/
def setCField (a : Aggregate) : CField → ℚ → Aggregate
  | CField.cpu, v => { a with AllocatedCPU := some v }
  | CField.mem, v => { a with AllocatedMemory := some v }

/-- Resource inventory scan `next(r for r in resources if ...)`. -/
def findResource (resources : List Resource) (rid : String) : Option Resource :=
  resources.find? (fun r => r.resource_id = rid)

/-- Aggregate freshly created by the compute loop on first sight of a key
(source lines 380-388), given the inventory entry and the statistics entry. -/
def mkComputeAgg (r : Resource) (ftype : String) (e : StatEntry) : Aggregate :=
  { Flavor := some ftype
    ResourceId := some e.resource_id
    ProjectId := some r.project_id
    UserId := some r.user_id
    StartTime := some e.period_start
    EndTime := some e.period_end
    Duration := some durationIso
    Zone := some (r.availability_zone.getD "default") }

/-- Aggregate created by the disk loop (source lines 413-421): a fresh dict
holding only the metadata and the disk statistic; no Flavor, no compute
fields. -/
def mkDiskAgg (r : Resource) (e : StatEntry) : Aggregate :=
  { ResourceId := some e.resource_id
    ProjectId := some r.project_id
    UserId := some r.user_id
    StartTime := some e.period_start
    EndTime := some e.period_end
    Duration := some durationIso
    Zone := some (r.availability_zone.getD "default")
    AllocatedDisk := some e.max }

/-- Embeds one iteration of the vcpus/memory statistics loop (source lines
366-393). When the key already exists, only the metric field is assigned.
On first sight, the inventory is scanned; a missing resource enters the
StopIteration handler, whose `ppr.pprint(r)` references the out-of-scope
generator variable `r` and therefore raises NameError, aborting the whole
function; a found resource with no `instance_type` metadata key raises
KeyError (only StopIteration is caught), also aborting. -/
def computeEntryStep (resources : List Resource) (field : CField)
    (m : List (StatKey × Aggregate)) (e : StatEntry) :
    Except PyErr (List (StatKey × Aggregate)) :=
  let key : StatKey := (e.resource_id, e.period_start, e.period_end)
  match dictGet m key with
  | some inst => Except.ok (dictSet m key (setCField inst field e.max))
  | none =>
      match findResource resources e.resource_id with
      | some r =>
          match r.instance_type with
          | some ftype => Except.ok (dictSet m key (setCField (mkComputeAgg r ftype e) field e.max))
          | none => Except.error PyErr.keyError
      | none => Except.error PyErr.nameError

/-- Embeds one iteration of the volume.size loop (source lines 405-421): the
inventory is scanned first (StopIteration propagates uncaught when the
resource is missing), then `inst = instance_measurements[key] = \x7b\x7d`
binds a fresh empty dict at the key, discarding any aggregate already there,
and only the disk data is filled in. -/
def diskEntryStep (resources : List Resource)
    (m : List (StatKey × Aggregate)) (e : StatEntry) :
    Except PyErr (List (StatKey × Aggregate)) :=
  match findResource resources e.resource_id with
  | some r =>
      let key : StatKey := (e.resource_id, e.period_start, e.period_end)
      Except.ok (dictSet m key (mkDiskAgg r e))
  | none => Except.error PyErr.stopIteration

/-- Embeds one compute-metric pass: a non-2xx statistics response is printed
and the metric skipped (the else branch at lines 394-397); otherwise each
entry is folded through `computeEntryStep`. -/
def runComputeMetric (resources : List Resource) (field : CField)
    (resp : Option (List StatEntry)) (m : List (StatKey × Aggregate)) :
    Except PyErr (List (StatKey × Aggregate)) :=
  match resp with
  | none => Except.ok m
  | some entries => entries.foldlM (computeEntryStep resources field) m

/-- Embeds the volume.size pass, with the same skip-on-error response
handling. -/
def runDiskMetric (resources : List Resource)
    (resp : Option (List StatEntry)) (m : List (StatKey × Aggregate)) :
    Except PyErr (List (StatKey × Aggregate)) :=
  match resp with
  | none => Except.ok m
  | some entries => entries.foldlM (diskEntryStep resources) m

/-- Embeds `populate_instances` (source lines 333-427): fetch the resource
inventory (E1004 on failure), then fold the vcpus, memory and volume.size
statistics, in that order, into the measurement dict. The window bounds only
parameterize the statistics queries, which `Env` abstracts. -/
def populate_instances (env : Env) : Except PyErr (List (StatKey × Aggregate)) := do
  match env.resources with
  | none => Except.error (PyErr.runtimeErr "E1004")
  | some resources => do
      let m1 ← runComputeMetric resources CField.cpu env.vcpusStats []
      let m2 ← runComputeMetric resources CField.mem env.memoryStats m1
      runDiskMetric resources env.volumeStats m2

/-- Site and region configuration fields consumed by record construction. -/
structure Cfg where
  site : String := "s"
  region : String := "r"
  deriving DecidableEq, Repr

/-- IdentityCache.get_project (source lines 435-444): a non-2xx response
yields None without raising; otherwise the decoded project name. The
run-lifetime cache is semantically transparent here because the identity
source is a pure function for the run. -/
def get_project (env : Env) (project_id : String) : Option String :=
  env.projectName project_id

/-- IdentityCache.get_user (source lines 446-455), as for `get_project`. -/
def get_user (env : Env) (user_id : String) : Option String :=
  env.userName user_id

/-- ComputeRecord fields as assigned in `gather_cloud_records`. -/
structure ComputeRecordT where
  Site : String
  Region : String
  Project : String
  User : String
  InstanceId : String
  StartTime : Nat
  EndTime : Nat
  Duration : String
  Zone : String
  Flavour : String
  Cost : ℚ
  AllocatedCPU : ℚ
  AllocatedMemory : ℚ
  deriving DecidableEq, Repr

/-- StorageRecord fields as assigned in `gather_cloud_records`. -/
structure StorageRecordT where
  Site : String
  Region : String
  Project : String
  User : String
  InstanceId : String
  StartTime : Nat
  EndTime : Nat
  Duration : String
  Zone : String
  StorageType : String
  Cost : ℚ
  AllocatedDisk : ℤ
  deriving DecidableEq, Repr

/-- A usage record, one of the two variants. -/
inductive CloudRec where
  | compute (r : ComputeRecordT)
  | storage (r : StorageRecordT)
  deriving DecidableEq, Repr

/-- InstanceId of either record variant. -/
def recInstanceId : CloudRec → String
  | CloudRec.compute r => r.InstanceId
  | CloudRec.storage r => r.InstanceId

/-- Subscript `proj[...][...]` on the identity lookup result: the source
guard `if user is None or proj is None` ends in the bare expression `next`
(the builtin, evaluated and discarded) instead of `continue`, so control
falls through and subscripting None raises TypeError. -/
def identitySubscript : Option String → Except PyErr String
  | some s => Except.ok s
  | none => Except.error PyErr.typeError



/-- Embeds the per-aggregate body of `gather_cloud_records` (source lines
474-516), in source order: read UserId and ProjectId (KeyError outside the
try block when absent), perform the identity lookups, then classify on the
presence of both compute fields. The compute branch reads Flavor (KeyError
is caught, printed and re-raised, so still fatal) and prices it (NameError
on a missing table entry, uncaught). The storage branch reads AllocatedDisk
(KeyError when absent), prices via lookup_block_storage, and converts the
gigabyte value with `int(gigabytes * 2**32)`. Both branches then subscript
the identity results (TypeError when a lookup returned None) and copy the
common fields. -/
def gatherOne (cfg : Cfg) (env : Env) (cd : CostDefinition) (inst : Aggregate) :
    Except PyErr CloudRec := do
  let uid ← getItem inst.UserId
  let pid ← getItem inst.ProjectId
  let user := get_user env uid
  let proj := get_project env pid
  if inst.AllocatedCPU.isSome && inst.AllocatedMemory.isSome then
    let flavorName ← getItem inst.Flavor
    let cost ← lookup_compute cd flavorName
    let cpu ← getItem inst.AllocatedCPU
    let mem ← getItem inst.AllocatedMemory
    let projName ← identitySubscript proj
    let userName ← identitySubscript user
    let rid ← getItem inst.ResourceId
    let st ← getItem inst.StartTime
    let et ← getItem inst.EndTime
    let du ← getItem inst.Duration
    let zo ← getItem inst.Zone
    Except.ok (CloudRec.compute
      { Site := cfg.site, Region := cfg.region, Project := projName, User := userName
        InstanceId := rid, StartTime := st, EndTime := et, Duration := du, Zone := zo
        Flavour := flavorName, Cost := cost, AllocatedCPU := cpu, AllocatedMemory := mem })
  else
    let gigabytes ← getItem inst.AllocatedDisk
    let cost := lookup_block_storage cd gigabytes
    let projName ← identitySubscript proj
    let userName ← identitySubscript user
    let rid ← getItem inst.ResourceId
    let st ← getItem inst.StartTime
    let et ← getItem inst.EndTime
    let du ← getItem inst.Duration
    let zo ← getItem inst.Zone
    Except.ok (CloudRec.storage
      { Site := cfg.site, Region := cfg.region, Project := projName, User := userName
        InstanceId := rid, StartTime := st, EndTime := et, Duration := du, Zone := zo
        StorageType := "Block", Cost := cost
        AllocatedDisk := pyInt (gigabytes * 4294967296) })

/-- Embeds the accumulation loop of `gather_cloud_records`: the records list
is built by appending one record per aggregate, in dict order; any exception
unwinds the whole call. -/
def gatherAll (cfg : Cfg) (env : Env) (cd : CostDefinition) :
    List (StatKey × Aggregate) → Except PyErr (List CloudRec)
  | [] => Except.ok []
  | ka :: rest => do
      let r ← gatherOne cfg env cd ka.2
      let rs ← gatherAll cfg env cd rest
      Except.ok (r :: rs)

/-- Embeds `gather_cloud_records` (source lines 457-520): the flavors fetch
must succeed (E1003 otherwise; the fetched flavors dict is built but never
consulted afterwards), then every aggregate is assembled in order. -/
def gather_cloud_records (cfg : Cfg) (env : Env) (cd : CostDefinition)
    (instance_measurements : List (StatKey × Aggregate)) : Except PyErr (List CloudRec) :=
  if env.flavorsOk then gatherAll cfg env cd instance_measurements
  else Except.error (PyErr.runtimeErr "E1003")

/-- Embeds the filter test `cr is ComputeRecord` (source line 525): Python
`is` compares object identity, and an instance is never identical to the
class object itself, so the test is false for every record. The intended
test was presumably `isinstance(cr, ComputeRecord)`. -/
def isComputeRecordClass (_ : CloudRec) : Bool := false

/-- Embeds the filter test `cr is StorageRecord` (source line 529), false
for every record for the same reason. -/
def isStorageRecordClass (_ : CloudRec) : Bool := false

/-- Leaf file name from `strftime` over the minute-floored run timestamp
(source line 533). The Gregorian digit rendering is abstracted into an
injective encoding of the minute-truncated timestamp; the markup and digit
syntax is out of scope, only determinism in the timestamp matters. -/
def xmlLeafName (t : Nat) : String := toString (t / 60) ++ "Z.xml"

/-- Embeds `write_cloud_records` (source lines 522-537): the returned pair
is the output file name and the sequence of records serialized into it, in
order (records passing the ComputeRecord identity test first, then those
passing the StorageRecord identity test). -/
def write_cloud_records (datetime_of_run : Nat) (records : List CloudRec) :
    String × List CloudRec :=
  (xmlLeafName datetime_of_run,
   records.filter isComputeRecordClass ++ records.filter isStorageRecordClass)

/-- Fallback epoch `arrow.get(..2015-01-01T00:00Z..)` in UTC seconds. -/
def epoch2015 : Nat := 1420070400

/-- Observable outcome of one completed pass of `main`. -/
structure RunOut where
  xmlName : String
  xmlRecords : List CloudRec
  memLastTimepoint : Nat
  durableAfter : Option Nat
  deriving DecidableEq, Repr

/-- Result of `main`: either an early no-work return or a completed pass. -/
inductive RunResult where
  | noWork
  | ran (o : RunOut)
  deriving DecidableEq, Repr

/-- Embeds the straight-line tail of `main` (source lines 600-618), run once
the window is fixed: OpenStack authentication (E1000/E1001) and the MeterSet
fetch (E1002) must succeed, then statistics are joined, records assembled
and the output written. At the end the in-memory
`persistent_state.last_timepoint` is assigned `period_end`, but the call
`persistent_state.write()` on line 618 is commented out, so the durable
state (`durable0`, the last_timepoint read from state.json at start) is
returned unchanged; no other code path writes state.json. -/
def runPipeline (durable0 : Option Nat) (period_end : Nat)
    (cfg : Cfg) (env : Env) (cd : CostDefinition) : Except PyErr RunResult := do
  if env.authOk then pure () else Except.error (PyErr.runtimeErr "E1001")
  if env.metersOk then pure () else Except.error (PyErr.runtimeErr "E1002")
  let m ← populate_instances env
  let recs ← gather_cloud_records cfg env cd m
  let out := write_cloud_records period_end recs
  Except.ok (RunResult.ran
    { xmlName := out.1, xmlRecords := out.2
      memLastTimepoint := period_end, durableAfter := durable0 })

/-- Embeds the window computation of `main` (source lines 586-598) and
dispatches to the pipeline: the cursor value (or the 2015 epoch) is the
window start, the floored current hour bounds the end, an empty window
returns without work, and singlestep mode clamps the end to one hour past
the start (returning without work when even that does not fit). -/
def mainRun (durable0 : Option Nat) (nowFloorHour : Nat) (do_singlestep : Bool)
    (cfg : Cfg) (env : Env) (cd : CostDefinition) : Except PyErr RunResult :=
  let period_start := durable0.getD epoch2015
  if nowFloorHour ≤ period_start then Except.ok RunResult.noWork
  else
    let stepped : Option Nat :=
      if do_singlestep then
        if nowFloorHour < period_start + 3600 then none else some (period_start + 3600)
      else some nowFloorHour
    match stepped with
    | none => Except.ok RunResult.noWork
    | some period_end => runPipeline durable0 period_end cfg env cd

/-- Modelled from the spec: the DeletionIndex (section 4.4) is absent from
the source file (no deletion ledger is loaded and no deletion test exists in
the script); modelled from the spec words: a resource is excluded iff its
recorded deletion time is strictly earlier than the given timestamp, and
resources with no deletion record are always included. -/
def deleted_before (dels : List (String × Nat)) (rid : String) (t : Nat) : Bool :=
  match lookupAssoc dels rid with
  | some dt => decide (dt < t)
  | none => false

/-- Modelled from the spec: the RecordAssembler deletion filter (section 4.6
step 2), absent from the source file: aggregates whose key resource id is
deleted before the window start are dropped before assembly. -/
def billableAggs (dels : List (String × Nat)) (period_start : Nat)
    (l : List (StatKey × Aggregate)) : List (StatKey × Aggregate) :=
  l.filter (fun ka => !(deleted_before dels ka.1.1 period_start))

/-- Modelled from the spec: assembly over the deletion-filtered aggregates,
combining the modelled filter with the per-aggregate assembly embedded from
the source. -/
def assembleFiltered (dels : List (String × Nat)) (period_start : Nat)
    (cfg : Cfg) (env : Env) (cd : CostDefinition)
    (l : List (StatKey × Aggregate)) : Except PyErr (List CloudRec) :=
  gatherAll cfg env cd (billableAggs dels period_start l)

/-! Concrete inputs used by witnesses and counterexamples. -/

/-- Configuration with fixed site and region names. -/
def cfgW : Cfg := {}

/-- Cost table holding one flavor and the block storage unit price. -/
def cdW : CostDefinition := { flavor_costs := [("m1", 1/2), ("storage.block", 2)] }

/-- Identity source resolving every id. -/
def envW : Env := { projectName := fun _ => some "P1", userName := fun _ => some "U1" }

/-- Inventory entry for a compute instance. -/
def r1 : Resource :=
  { resource_id := "r1"
    project_id := "p1"
    user_id := "u1"
    instance_type := some "m1"
    availability_zone := some "z" }

/-- Statistics entry carrying the vcpus max for r1. -/
def eCpu : StatEntry := { resource_id := "r1", period_start := 0, period_end := 3600, max := 4 }

/-- Statistics entry carrying the volume.size max for the same key as eCpu. -/
def eDisk : StatEntry := { resource_id := "r1", period_start := 0, period_end := 3600, max := 100 }

/-- Environment where the vcpus metric and then the volume.size metric both
report on the same StatPeriodKey. -/
def envC4 : Env :=
  { envW with
    resources := some [r1]
    vcpusStats := some [eCpu]
    volumeStats := some [eDisk] }

/-- Statistics entry for a resource id absent from the inventory. -/
def eX : StatEntry := { resource_id := "x", period_start := 0, period_end := 3600, max := 1 }

/-- Environment where a vcpus sample references a resource missing from the
inventory snapshot. -/
def envC5a : Env := { envW with resources := some [], vcpusStats := some [eX] }

/-- Environment where a volume.size sample references a resource missing
from the inventory snapshot. -/
def envC5b : Env := { envW with resources := some [], volumeStats := some [eX] }

/-- Aggregate with AllocatedCPU and AllocatedDisk but no AllocatedMemory:
matches neither classification combination of the spec. -/
def aggCexC3 : Aggregate :=
  { Flavor := some "m1"
    ResourceId := some "r1"
    ProjectId := some "p1"
    UserId := some "u1"
    StartTime := some 0
    EndTime := some 3600
    Duration := some durationIso
    Zone := some "z"
    AllocatedCPU := some 4
    AllocatedDisk := some 10 }

/-- Environment whose project lookups all return a non-success response. -/
def envNoProj : Env := { envW with projectName := fun _ => none }

/-- Storage-shaped aggregate with all base fields set. -/
def aggD : Aggregate :=
  { ResourceId := some "r1"
    ProjectId := some "p1"
    UserId := some "u1"
    StartTime := some 0
    EndTime := some 3600
    Duration := some durationIso
    Zone := some "z"
    AllocatedDisk := some 5 }

/-- Storage-shaped aggregate with exactly one gigabyte of allocated disk. -/
def aggG1 : Aggregate := { aggD with AllocatedDisk := some 1 }

/-- Compute-shaped aggregate with both compute fields set. -/
def aggC : Aggregate :=
  { aggD with
    Flavor := some "m1"
    AllocatedCPU := some 4
    AllocatedMemory := some 8192
    AllocatedDisk := none }

/-- Environment for a fully successful end-to-end pass with empty metering
data. -/
def envFullOk : Env :=
  { envW with
    resources := some [r1] }


/-- Cost table with no entries at all, so block storage prices at the
degraded-mode zero. -/
def cdEmpty : CostDefinition := { flavor_costs := [] }

/-- Storage-shaped aggregate for a resource with a recorded deletion time
before the window start. -/
def aggDel : Aggregate := { aggD with ResourceId := some "d1" }

/-- Aggregate dict holding one deleted and one live resource. -/
def lW : List (StatKey × Aggregate) := [(("d1", 0, 3600), aggDel), (("r1", 0, 3600), aggD)]

/-- Record assembled from aggD under the empty cost table. -/
def recW : CloudRec :=
  CloudRec.storage
    { Site := "s"
      Region := "r"
      Project := "P1"
      User := "U1"
      InstanceId := "r1"
      StartTime := 0
      EndTime := 3600
      Duration := durationIso
      Zone := "z"
      StorageType := "Block"
      Cost := 0
      AllocatedDisk := pyInt (5 * 4294967296) }

/-- Classification of an assembly outcome: which record variant was
produced, or a fatal error. -/
inductive GOClass where
  | computeRec
  | storageRec
  | fatal
  deriving DecidableEq, Repr

/-- Classifier of one assembly outcome. -/
def classifyGather : Except PyErr CloudRec → GOClass
  | Except.ok (CloudRec.compute _) => GOClass.computeRec
  | Except.ok (CloudRec.storage _) => GOClass.storageRec
  | Except.error _ => GOClass.fatal

/-- AllocatedDisk of a storage record outcome. -/
def recAllocatedDisk : CloudRec → Option ℤ
  | CloudRec.compute _ => none
  | CloudRec.storage r => some r.AllocatedDisk

deriving instance DecidableEq for Except

/-! Helper lemmas. -/

@[simp] theorem getItem_some {α : Type} (a : α) : getItem (some a) = Except.ok a := rfl

@[simp] theorem getItem_none {α : Type} : (getItem none : Except PyErr α) = Except.error PyErr.keyError := rfl

@[simp] theorem exceptBind_ok {α β : Type} (a : α) (f : α → Except PyErr β) :
    (Except.ok a >>= f) = f a := rfl

@[simp] theorem exceptBind_err {α β : Type} (e : PyErr) (f : α → Except PyErr β) :
    ((Except.error e : Except PyErr α) >>= f) = Except.error e := rfl

@[simp] theorem identitySubscript_some (s : String) : identitySubscript (some s) = Except.ok s := rfl

@[simp] theorem identitySubscript_none : identitySubscript none = Except.error PyErr.typeError := rfl

/-! Claim theorems. -/

/-- C10: for every gigabytes value g, storage pricing returns the unit price
under storage.block times g when the key is present (linear in g, 0 at g = 0,
additive), and returns 0 for every g when the key is absent. -/
theorem C10_storage_pricing (cd : CostDefinition) (g g2 : ℚ) :
    lookup_block_storage cd g =
      (match lookupAssoc cd.flavor_costs "storage.block" with
       | some u => u * g
       | none => 0) ∧
    lookup_block_storage cd 0 = 0 ∧
    lookup_block_storage cd (g + g2) =
      lookup_block_storage cd g + lookup_block_storage cd g2 := by
  refine ⟨rfl, ?_, ?_⟩ <;>
    · unfold lookup_block_storage
      cases lookupAssoc cd.flavor_costs "storage.block" <;> simp <;> ring

/-- C6: the claim says a flavor absent from the cost table is priced with a
diagnostic and cost 0.0; in the source the KeyError handler references the
undefined name flavour_name, so the lookup raises NameError instead of
returning, and a NameError is not caught anywhere downstream: the run
fails. This theorem evaluates the code on the failing input class. -/
theorem C6_missing_flavor_lookup_raises (cd : CostDefinition) (fl : String)
    (h : lookupAssoc cd.flavor_costs fl = none) :
    lookup_compute cd fl = Except.error PyErr.nameError := by
  unfold lookup_compute
  rw [h]

/-- C6 witness: a concrete flavor absent from the concrete cost table. -/
theorem C6_missing_flavor_lookup_raises_witness :
    lookupAssoc cdW.flavor_costs "m1.unknown" = none ∧
    lookup_compute cdW "m1.unknown" = Except.error PyErr.nameError :=
  ⟨by decide, C6_missing_flavor_lookup_raises cdW "m1.unknown" (by decide)⟩

/-- C2: the claim says the output file contains every assembled record; in
the source both serialization loops test `cr is ComputeRecord` (resp.
StorageRecord), an identity comparison of an instance against the class
object, which is false for every record, so the file body is empty for every
run regardless of the assembled records. -/
theorem C2_output_file_always_empty (t : Nat) (records : List CloudRec) :
    (write_cloud_records t records).2 = [] := by
  unfold write_cloud_records
  simp [isComputeRecordClass, isStorageRecordClass]

/-- C5: the claim says a statistics sample whose resource is absent from the
inventory snapshot is skipped without failing the run; in the source the
compute-loop StopIteration handler prints the out-of-scope generator
variable r (NameError) and the disk loop has no handler at all
(StopIteration escapes), so in both cases the run aborts. -/
theorem C5_missing_inventory_aborts_run :
    populate_instances envC5a = Except.error PyErr.nameError ∧
    populate_instances envC5b = Except.error PyErr.stopIteration := by
  exact ⟨by decide, by decide⟩

/-- C7: the identity resolver does return None on a non-success response
without raising, but the assembler guard ends in the bare expression `next`
instead of `continue`, so execution falls through and subscripting the None
identity raises TypeError, aborting the whole run rather than treating the
unresolved identity per aggregate. -/
theorem C7_unresolved_identity_aborts :
    get_project envNoProj "p1" = none ∧
    gatherOne cfgW envNoProj cdW aggD = Except.error PyErr.typeError := by
  exact ⟨rfl, by decide⟩

/-- C3 counterexample: an aggregate with AllocatedCPU present, AllocatedMemory
absent and AllocatedDisk present matches neither classification combination,
yet assembly succeeds with a storage record instead of raising a fatal
error. -/
theorem C3_counterexample :
    aggCexC3.AllocatedCPU.isSome = true ∧ aggCexC3.AllocatedMemory = none ∧
    classifyGather (gatherOne cfgW envW cdW aggCexC3) = GOClass.storageRec := by
  exact ⟨rfl, rfl, rfl⟩

/-- C4 counterexample: with a vcpus sample and then a volume.size sample for
the same StatPeriodKey, the compute pass first records AllocatedCPU = 4, and
the disk pass then replaces the whole aggregate: the final dict holds only
the disk-built aggregate, whose AllocatedCPU is gone. -/
theorem C4_counterexample :
    runComputeMetric [r1] CField.cpu (some [eCpu]) [] =
      Except.ok [(("r1", 0, 3600), setCField (mkComputeAgg r1 "m1" eCpu) CField.cpu 4)] ∧
    (setCField (mkComputeAgg r1 "m1" eCpu) CField.cpu 4).AllocatedCPU = some 4 ∧
    populate_instances envC4 = Except.ok [(("r1", 0, 3600), mkDiskAgg r1 eDisk)] ∧
    (mkDiskAgg r1 eDisk).AllocatedCPU = none := by
  exact ⟨by decide, rfl, by decide, rfl⟩

/-- C9 counterexample: a storage aggregate of exactly one GiB yields an
AllocatedDisk of 2 to the 32, not the GiB-to-bytes value 2 to the 30 stated
by the claim. -/
theorem C9_counterexample :
    (gatherOne cfgW envW cdW aggG1).toOption.bind recAllocatedDisk =
      some (pyInt (1 * 4294967296)) ∧
    pyInt (1 * 4294967296) = 4294967296 ∧
    (4294967296 : ℤ) ≠ 1 * 2 ^ 30 := by
  refine ⟨rfl, ?_, by decide⟩
  rw [show ((1 : ℚ) * 4294967296) = 4294967296 by norm_num]
  decide

/-- C4 amended: merging a later compute metric (memory after CPU) into an
existing aggregate for a key only assigns that metric field and preserves
the others, but the allocated-disk metric does not merge at all: it binds a
fresh aggregate at its key, discarding every previously set field, so the
join is order-dependent with disk data winning. -/
theorem C4_amended_merge (resources : List Resource) (field : CField)
    (m : List (StatKey × Aggregate)) (e : StatEntry) (inst : Aggregate) (r : Resource)
    (hk : dictGet m (e.resource_id, e.period_start, e.period_end) = some inst)
    (hr : findResource resources e.resource_id = some r) :
    computeEntryStep resources field m e =
      Except.ok (dictSet m (e.resource_id, e.period_start, e.period_end)
        (setCField inst field e.max)) ∧
    (setCField inst CField.cpu e.max).AllocatedMemory = inst.AllocatedMemory ∧
    (setCField inst CField.mem e.max).AllocatedCPU = inst.AllocatedCPU ∧
    (setCField inst field e.max).AllocatedDisk = inst.AllocatedDisk ∧
    diskEntryStep resources m e =
      Except.ok (dictSet m (e.resource_id, e.period_start, e.period_end) (mkDiskAgg r e)) ∧
    (mkDiskAgg r e).AllocatedCPU = none ∧
    (mkDiskAgg r e).AllocatedMemory = none ∧
    (mkDiskAgg r e).Flavor = none := by
  refine ⟨?_, rfl, rfl, ?_, ?_, rfl, rfl, rfl⟩
  · simp only [computeEntryStep, hk]
  · cases field <;> rfl
  · simp only [diskEntryStep, hr]

/-- C4 witness: the merge characterization applied at a concrete dict
holding an existing compute aggregate for the key of eCpu. -/
theorem C4_amended_merge_witness :
    computeEntryStep [r1] CField.cpu [(("r1", 0, 3600), aggC)] eCpu =
      Except.ok (dictSet [(("r1", 0, 3600), aggC)] ("r1", 0, 3600)
        (setCField aggC CField.cpu 4)) ∧
    (setCField aggC CField.cpu 4).AllocatedMemory = aggC.AllocatedMemory ∧
    (setCField aggC CField.mem 4).AllocatedCPU = aggC.AllocatedCPU ∧
    (setCField aggC CField.cpu 4).AllocatedDisk = aggC.AllocatedDisk ∧
    diskEntryStep [r1] [(("r1", 0, 3600), aggC)] eCpu =
      Except.ok (dictSet [(("r1", 0, 3600), aggC)] ("r1", 0, 3600) (mkDiskAgg r1 eCpu)) ∧
    (mkDiskAgg r1 eCpu).AllocatedCPU = none ∧
    (mkDiskAgg r1 eCpu).AllocatedMemory = none ∧
    (mkDiskAgg r1 eCpu).Flavor = none :=
  C4_amended_merge [r1] CField.cpu [(("r1", 0, 3600), aggC)] eCpu aggC r1 (by decide) (by decide)

/-- C9 amended: for every storage aggregate of g GiB the emitted record
field AllocatedDisk equals the Python truncation of g times 2 to the 32
(not 2 to the 30), and the cost is the block-storage price of g. -/
theorem C9_amended_disk_conversion (cfg : Cfg) (env : Env) (cd : CostDefinition)
    (inst : Aggregate) (uid pid un pn rid du zo : String) (st et : Nat) (g : ℚ)
    (hu : inst.UserId = some uid) (hp : inst.ProjectId = some pid)
    (hun : env.userName uid = some un) (hpn : env.projectName pid = some pn)
    (hcpu : inst.AllocatedCPU = none) (hmem : inst.AllocatedMemory = none)
    (hdsk : inst.AllocatedDisk = some g) (hrid : inst.ResourceId = some rid)
    (hst : inst.StartTime = some st) (het : inst.EndTime = some et)
    (hdu : inst.Duration = some du) (hzo : inst.Zone = some zo) :
    gatherOne cfg env cd inst = Except.ok (CloudRec.storage
      { Site := cfg.site
        Region := cfg.region
        Project := pn
        User := un
        InstanceId := rid
        StartTime := st
        EndTime := et
        Duration := du
        Zone := zo
        StorageType := "Block"
        Cost := lookup_block_storage cd g
        AllocatedDisk := pyInt (g * 2 ^ 32) }) := by
  have h32 : (2 : ℚ) ^ 32 = 4294967296 := by norm_num
  simp [gatherOne, hu, hp, hun, hpn, hcpu, hmem, hdsk, hrid, hst, het, hdu, hzo,
        get_user, get_project, h32]

/-- C9 witness: the conversion applied to the concrete five GiB storage
aggregate. -/
theorem C9_amended_disk_conversion_witness :
    gatherOne cfgW envW cdW aggD = Except.ok (CloudRec.storage
      { Site := "s"
        Region := "r"
        Project := "P1"
        User := "U1"
        InstanceId := "r1"
        StartTime := 0
        EndTime := 3600
        Duration := durationIso
        Zone := "z"
        StorageType := "Block"
        Cost := lookup_block_storage cdW 5
        AllocatedDisk := pyInt (5 * 2 ^ 32) }) :=
  C9_amended_disk_conversion cfgW envW cdW aggD "u1" "p1" "U1" "P1" "r1" durationIso "z"
    0 3600 5 rfl rfl rfl rfl rfl rfl rfl rfl rfl rfl rfl rfl

/-- C3 amended: provided identity resolves and the flavor is present and
priced and the base fields are set, an aggregate with both compute fields
yields exactly one compute record; an aggregate lacking at least one compute
field but carrying AllocatedDisk yields exactly one storage record, even
when one compute field is present; only an aggregate lacking a compute field
and lacking AllocatedDisk raises a fatal error. -/
theorem C3_amended_classification (cfg : Cfg) (env : Env) (cd : CostDefinition)
    (inst : Aggregate) (uid pid un pn fl rid du zo : String) (st et : Nat) (c : ℚ)
    (hu : inst.UserId = some uid) (hp : inst.ProjectId = some pid)
    (hun : env.userName uid = some un) (hpn : env.projectName pid = some pn)
    (hfl : inst.Flavor = some fl) (hc : lookupAssoc cd.flavor_costs fl = some c)
    (hrid : inst.ResourceId = some rid) (hst : inst.StartTime = some st)
    (het : inst.EndTime = some et) (hdu : inst.Duration = some du)
    (hzo : inst.Zone = some zo) :
    classifyGather (gatherOne cfg env cd inst) =
      (if inst.AllocatedCPU.isSome && inst.AllocatedMemory.isSome then GOClass.computeRec
       else if inst.AllocatedDisk.isSome then GOClass.storageRec
       else GOClass.fatal) := by
  cases hcpu : inst.AllocatedCPU <;> cases hmem : inst.AllocatedMemory <;>
    cases hdsk : inst.AllocatedDisk <;>
      simp [gatherOne, hu, hp, hun, hpn, hfl, hc, hrid, hst, het, hdu, hzo,
            hcpu, hmem, hdsk, get_user, get_project, lookup_compute, classifyGather]

/-- C3 witness: the classification applied to a concrete aggregate with both
compute fields set yields a compute record. -/
theorem C3_amended_classification_witness :
    classifyGather (gatherOne cfgW envW cdW aggC) = GOClass.computeRec := by
  have h := C3_amended_classification cfgW envW cdW aggC "u1" "p1" "U1" "P1" "m1" "r1"
    durationIso "z" 0 3600 (1/2) rfl rfl rfl rfl rfl rfl rfl rfl rfl rfl rfl
  exact h.trans (by decide)

/-- Helper: a completed pipeline pass returns the durable cursor exactly as
it was read at start. -/
theorem runPipeline_durable (durable0 : Option Nat) (pend : Nat) (cfg : Cfg) (env : Env)
    (cd : CostDefinition) (o : RunOut)
    (h : runPipeline durable0 pend cfg env cd = Except.ok (RunResult.ran o)) :
    o.durableAfter = durable0 := by
  unfold runPipeline at h
  cases ha : env.authOk <;> rw [ha] at h <;> simp at h
  cases hme : env.metersOk <;> rw [hme] at h <;> simp at h
  cases hm : populate_instances env <;> rw [hm] at h <;> simp at h
  rename_i m
  cases hg : gather_cloud_records cfg env cd m <;> rw [hg] at h <;> simp at h
  rw [← h]

/-- C1: the claim says the durable cursor is written at run end, equal to
the period end of the window; in the source the final call
persistent_state.write() is commented out, so every completed pass leaves
the durable last_timepoint exactly as it was read at start (only the
in-memory copy is assigned), and no other code path writes the state file:
nothing survives a restart. -/
theorem C1_cursor_never_persisted (durable0 : Option Nat) (now : Nat) (ss : Bool)
    (cfg : Cfg) (env : Env) (cd : CostDefinition) (o : RunOut)
    (h : mainRun durable0 now ss cfg env cd = Except.ok (RunResult.ran o)) :
    o.durableAfter = durable0 := by
  unfold mainRun at h
  dsimp only at h
  repeat' split at h
  all_goals try (simp at h ; done)
  all_goals exact runPipeline_durable _ _ _ _ _ _ h

/-- C1 witness: a concrete fully successful non-dry-run pass over a
non-empty window (cursor 1000, window end 10000) whose durable cursor is
still 1000 afterwards, not the period end recorded in memory. -/
theorem C1_cursor_never_persisted_witness :
    mainRun (some 1000) 10000 false cfgW envFullOk cdW =
      Except.ok (RunResult.ran
        { xmlName := xmlLeafName 10000
          xmlRecords := []
          memLastTimepoint := 10000
          durableAfter := some 1000 }) ∧
    ({ xmlName := xmlLeafName 10000
       xmlRecords := []
       memLastTimepoint := 10000
       durableAfter := some 1000 } : RunOut).durableAfter = some 1000 ∧
    some 1000 ≠ some 10000 :=
  have h : mainRun (some 1000) 10000 false cfgW envFullOk cdW =
      Except.ok (RunResult.ran
        { xmlName := xmlLeafName 10000
          xmlRecords := []
          memLastTimepoint := 10000
          durableAfter := some 1000 }) := by decide
  ⟨h, C1_cursor_never_persisted (some 1000) 10000 false cfgW envFullOk cdW _ h, by decide⟩

/-- Helper: a successfully assembled record carries the InstanceId copied
from the ResourceId field of its aggregate. -/
theorem gatherOne_resourceId (cfg : Cfg) (env : Env) (cd : CostDefinition)
    (a : Aggregate) (rec : CloudRec)
    (h : gatherOne cfg env cd a = Except.ok rec) :
    a.ResourceId = some (recInstanceId rec) := by
  unfold gatherOne at h
  cases hu : a.UserId
  · rw [hu] at h ; simp at h
  rename_i uid
  rw [hu] at h
  simp only [getItem_some, exceptBind_ok] at h
  cases hp : a.ProjectId
  · rw [hp] at h ; simp at h
  rename_i pid
  rw [hp] at h
  simp only [getItem_some, exceptBind_ok, get_user, get_project] at h
  by_cases hb : (a.AllocatedCPU.isSome && a.AllocatedMemory.isSome) = true
  · rw [if_pos hb] at h
    cases hfl : a.Flavor
    · rw [hfl] at h ; simp at h
    rename_i fl
    rw [hfl] at h
    simp only [getItem_some, exceptBind_ok] at h
    cases hlc : lookup_compute cd fl
    · rw [hlc] at h ; simp at h
    rename_i c
    rw [hlc] at h
    simp only [exceptBind_ok] at h
    cases hcpu : a.AllocatedCPU
    · rw [hcpu] at h ; simp at h
    rename_i cpu
    rw [hcpu] at h
    simp only [getItem_some, exceptBind_ok] at h
    cases hmem : a.AllocatedMemory
    · rw [hmem] at h ; simp at h
    rename_i mem
    rw [hmem] at h
    simp only [getItem_some, exceptBind_ok] at h
    cases hpn : env.projectName pid
    · rw [hpn] at h ; simp at h
    rename_i pn
    rw [hpn] at h
    simp only [identitySubscript_some, exceptBind_ok] at h
    cases hun : env.userName uid
    · rw [hun] at h ; simp at h
    rename_i un
    rw [hun] at h
    simp only [identitySubscript_some, exceptBind_ok] at h
    cases hrid : a.ResourceId
    · rw [hrid] at h ; simp at h
    rename_i rid
    rw [hrid] at h
    simp only [getItem_some, exceptBind_ok] at h
    cases hst : a.StartTime
    · rw [hst] at h ; simp at h
    rename_i st
    rw [hst] at h
    simp only [getItem_some, exceptBind_ok] at h
    cases het : a.EndTime
    · rw [het] at h ; simp at h
    rename_i et
    rw [het] at h
    simp only [getItem_some, exceptBind_ok] at h
    cases hdu : a.Duration
    · rw [hdu] at h ; simp at h
    rename_i du
    rw [hdu] at h
    simp only [getItem_some, exceptBind_ok] at h
    cases hzo : a.Zone
    · rw [hzo] at h ; simp at h
    rename_i zo
    rw [hzo] at h
    simp only [getItem_some, exceptBind_ok, Except.ok.injEq] at h
    subst h
    rfl
  · rw [if_neg hb] at h
    cases hdsk : a.AllocatedDisk
    · rw [hdsk] at h ; simp at h
    rename_i g
    rw [hdsk] at h
    simp only [getItem_some, exceptBind_ok] at h
    cases hpn : env.projectName pid
    · rw [hpn] at h ; simp at h
    rename_i pn
    rw [hpn] at h
    simp only [identitySubscript_some, exceptBind_ok] at h
    cases hun : env.userName uid
    · rw [hun] at h ; simp at h
    rename_i un
    rw [hun] at h
    simp only [identitySubscript_some, exceptBind_ok] at h
    cases hrid : a.ResourceId
    · rw [hrid] at h ; simp at h
    rename_i rid
    rw [hrid] at h
    simp only [getItem_some, exceptBind_ok] at h
    cases hst : a.StartTime
    · rw [hst] at h ; simp at h
    rename_i st
    rw [hst] at h
    simp only [getItem_some, exceptBind_ok] at h
    cases het : a.EndTime
    · rw [het] at h ; simp at h
    rename_i et
    rw [het] at h
    simp only [getItem_some, exceptBind_ok] at h
    cases hdu : a.Duration
    · rw [hdu] at h ; simp at h
    rename_i du
    rw [hdu] at h
    simp only [getItem_some, exceptBind_ok] at h
    cases hzo : a.Zone
    · rw [hzo] at h ; simp at h
    rename_i zo
    rw [hzo] at h
    simp only [getItem_some, exceptBind_ok, Except.ok.injEq] at h
    subst h
    rfl

/-- Helper: membership characterization of a successful assembly pass: every
output record comes from some input aggregate, and every input aggregate
contributes some output record. -/
theorem gatherAll_ok_mem (cfg : Cfg) (env : Env) (cd : CostDefinition)
    (l : List (StatKey × Aggregate)) (recs : List CloudRec)
    (h : gatherAll cfg env cd l = Except.ok recs) :
    (∀ rec ∈ recs, ∃ ka ∈ l, gatherOne cfg env cd (Prod.snd ka) = Except.ok rec) ∧
    (∀ ka ∈ l, ∃ rec ∈ recs, gatherOne cfg env cd (Prod.snd ka) = Except.ok rec) := by
  induction l generalizing recs with
  | nil =>
      simp only [gatherAll, Except.ok.injEq] at h
      subst h
      simp
  | cons ka rest ih =>
      simp only [gatherAll] at h
      cases hg : gatherOne cfg env cd ka.2
      · rw [hg] at h ; simp at h
      rename_i r
      rw [hg] at h
      simp only [exceptBind_ok] at h
      cases hr : gatherAll cfg env cd rest
      · rw [hr] at h ; simp at h
      rename_i rs
      rw [hr] at h
      simp only [exceptBind_ok, Except.ok.injEq] at h
      subst h
      obtain ⟨ih1, ih2⟩ := ih rs hr
      constructor
      · intro rec hrec
        rcases List.mem_cons.mp hrec with hh | hmem
        · exact ⟨ka, List.mem_cons_self ka rest, by rw [← hh] at hg ; exact hg⟩
        · obtain ⟨kb, hkb, hgb⟩ := ih1 rec hmem
          exact ⟨kb, List.mem_cons_of_mem ka hkb, hgb⟩
      · intro kb hkb
        rcases List.mem_cons.mp hkb with hh | hmem
        · exact ⟨r, List.mem_cons_self r rs, by rw [hh] ; exact hg⟩
        · obtain ⟨rec, hrec, hgb⟩ := ih2 kb hmem
          exact ⟨rec, List.mem_cons_of_mem r hrec, hgb⟩

/-- C8: for every run of the (spec-modelled) deletion-filtered assembly, a
resource whose recorded deletion time is strictly earlier than the window
start contributes no record to the output, and a resource with no deletion
record or one at or after the window start keeps its records, provided the
aggregate keys carry their own resource id. -/
theorem C8_deletion_filter (dels : List (String × Nat)) (ps : Nat) (cfg : Cfg) (env : Env)
    (cd : CostDefinition) (l : List (StatKey × Aggregate)) (recs : List CloudRec) (rid : String)
    (hk : ∀ ka ∈ l, (Prod.snd ka : Aggregate).ResourceId = some ka.1.1)
    (hrun : assembleFiltered dels ps cfg env cd l = Except.ok recs) :
    (deleted_before dels rid ps = true → ∀ rec ∈ recs, recInstanceId rec ≠ rid) ∧
    (deleted_before dels rid ps = false →
      ∀ ka ∈ l, (ka : StatKey × Aggregate).1.1 = rid →
        ∃ rec ∈ recs, recInstanceId rec = rid) := by
  obtain ⟨h1, h2⟩ := gatherAll_ok_mem cfg env cd (billableAggs dels ps l) recs hrun
  constructor
  · intro hdel rec hrec heq
    obtain ⟨ka, hka, hg⟩ := h1 rec hrec
    obtain ⟨hmem, hpred⟩ := List.mem_filter.mp hka
    have hres := hk ka hmem
    have hri := gatherOne_resourceId cfg env cd ka.2 rec hg
    rw [hres] at hri
    have hkey : ka.1.1 = recInstanceId rec := Option.some.inj hri
    rw [heq] at hkey
    rw [hkey] at hpred
    rw [hdel] at hpred
    simp at hpred
  · intro hdel ka hka hkey
    have hfil : ka ∈ billableAggs dels ps l := by
      refine List.mem_filter.mpr ⟨hka, ?_⟩
      rw [hkey, hdel]
      rfl
    obtain ⟨rec, hrec, hg⟩ := h2 ka hfil
    have hres := hk ka hka
    have hri := gatherOne_resourceId cfg env cd ka.2 rec hg
    rw [hres] at hri
    exact ⟨rec, hrec, (Option.some.inj hri).symm.trans hkey⟩

/-- C8 witness: with a deletion ledger recording d1 deleted at 100 and a
window starting at 200, the aggregate dict lW holding resources d1 and r1
assembles to exactly the record of r1: nothing for d1, and r1 present. -/
theorem C8_deletion_filter_witness :
    (deleted_before [("d1", 100)] "d1" 200 = true ∧
      ∀ rec ∈ [recW], recInstanceId rec ≠ "d1") ∧
    (deleted_before [("d1", 100)] "r1" 200 = false ∧
      ∃ rec ∈ [recW], recInstanceId rec = "r1") :=
  have hrun : assembleFiltered [("d1", 100)] 200 cfgW envW cdEmpty lW = Except.ok [recW] := rfl
  have hk : ∀ ka ∈ lW, (Prod.snd ka : Aggregate).ResourceId = some ka.1.1 := by decide
  have hmain := C8_deletion_filter [("d1", 100)] 200 cfgW envW cdEmpty lW [recW] "d1" hk hrun
  have hmain2 := C8_deletion_filter [("d1", 100)] 200 cfgW envW cdEmpty lW [recW] "r1" hk hrun
  ⟨⟨by decide, hmain.1 (by decide)⟩,
   ⟨by decide, hmain2.2 (by decide) (("r1", 0, 3600), aggD) (by decide) rfl⟩⟩
